import Mathlib

/-!
Verification of the interactive composition-and-export engine of the
birthday-card studio (client/app/page.tsx and server/index.js).

The client state and its handlers are shallowly embedded below.  JavaScript
numbers are modelled by `JsNum`: IEEE-754 special values (`nan`, the two
infinities) are represented exactly, and finite values are exact rationals.
For the properties proved here this is faithful: the interesting behaviour
(division by zero producing infinities or `nan`, `Math.min`/`Math.max`
propagating `nan`, clamping into a closed interval) is exact in IEEE-754 and
independent of rounding of finite intermediate results.
-/

namespace BirthdayCard

/-- A JavaScript number: `nan`, `+Infinity`, `-Infinity`, or a finite value
(modelled as an exact rational; rounding of finite arithmetic is not
relevant to the properties proved here).  `getBoundingClientRect` widths and
heights are non-negative, so the finite zero stands for IEEE `+0`. -/
inductive JsNum where
  | nan : JsNum
  | posInf : JsNum
  | negInf : JsNum
  | fin : ℚ → JsNum
deriving DecidableEq

namespace JsNum

/-- JavaScript subtraction `a - b` on `JsNum`. -/
def sub : JsNum → JsNum → JsNum
  | nan, _ => nan
  | _, nan => nan
  | posInf, posInf => nan
  | posInf, _ => posInf
  | negInf, negInf => nan
  | negInf, _ => negInf
  | fin _, posInf => negInf
  | fin _, negInf => posInf
  | fin a, fin b => fin (a - b)

/-- JavaScript division `a / b` on `JsNum` (zero divisor stands for IEEE
`+0`, the only zero produced by `getBoundingClientRect`): a nonzero finite
value divided by zero gives a signed infinity, and `0 / 0` gives `nan`. -/
def div : JsNum → JsNum → JsNum
  | nan, _ => nan
  | _, nan => nan
  | posInf, posInf => nan
  | posInf, negInf => nan
  | negInf, posInf => nan
  | negInf, negInf => nan
  | posInf, fin b => if b < 0 then negInf else posInf
  | negInf, fin b => if b < 0 then posInf else negInf
  | fin _, posInf => fin 0
  | fin _, negInf => fin 0
  | fin a, fin b =>
      if b = 0 then
        if a = 0 then nan else if 0 < a then posInf else negInf
      else fin (a / b)

/-- JavaScript multiplication `a * b` on `JsNum`. -/
def mul : JsNum → JsNum → JsNum
  | nan, _ => nan
  | _, nan => nan
  | posInf, posInf => posInf
  | posInf, negInf => negInf
  | negInf, posInf => negInf
  | negInf, negInf => posInf
  | posInf, fin b => if b = 0 then nan else if 0 < b then posInf else negInf
  | negInf, fin b => if b = 0 then nan else if 0 < b then negInf else posInf
  | fin a, posInf => if a = 0 then nan else if 0 < a then posInf else negInf
  | fin a, negInf => if a = 0 then nan else if 0 < a then negInf else posInf
  | fin a, fin b => fin (a * b)

/-- `Math.max` on two arguments: `nan` wins over everything. -/
def jsMax : JsNum → JsNum → JsNum
  | nan, _ => nan
  | _, nan => nan
  | posInf, _ => posInf
  | _, posInf => posInf
  | negInf, b => b
  | a, negInf => a
  | fin a, fin b => fin (max a b)

/-- `Math.min` on two arguments: `nan` wins over everything. -/
def jsMin : JsNum → JsNum → JsNum
  | nan, _ => nan
  | _, nan => nan
  | negInf, _ => negInf
  | _, negInf => negInf
  | posInf, b => b
  | a, posInf => a
  | fin a, fin b => fin (min a b)

end JsNum

/-- page.tsx line 95: `const clamp = (value, min, max) => Math.min(max, Math.max(min, value))`. -/
def clamp (value lo hi : JsNum) : JsNum :=
  JsNum.jsMin hi (JsNum.jsMax lo value)

/-- The clamping formula of the claim, over exact rationals:
`clamp(v, lo, hi) = min(hi, max(lo, v))`. -/
def clampQ (v lo hi : ℚ) : ℚ :=
  min hi (max lo v)

namespace DraggableImage

/-- page.tsx lines 146-154 (`DraggableImage.updatePosition`): from the
pointer event's client coordinates and the container's bounding rectangle,
`x = clamp(((clientX - rect.left) / rect.width) * 100, 0, 100)` and
`y = clamp(((clientY - rect.top) / rect.height) * 100, 0, 100)`; the pair is
then passed to `onPositionChange` unconditionally. -/
def updatePosition (clientX clientY rectLeft rectTop rectWidth rectHeight : JsNum) :
    JsNum × JsNum :=
  (clamp (JsNum.mul (JsNum.div (JsNum.sub clientX rectLeft) rectWidth) (.fin 100))
      (.fin 0) (.fin 100),
   clamp (JsNum.mul (JsNum.div (JsNum.sub clientY rectTop) rectHeight) (.fin 100))
      (.fin 0) (.fin 100))

end DraggableImage

namespace DraggableText

/-- page.tsx lines 225-232 (`DraggableText.updatePosition`): identical
coordinate computation against the card container's bounding rectangle,
passed to `onPositionChange` unconditionally. -/
def updatePosition (clientX clientY rectLeft rectTop rectWidth rectHeight : JsNum) :
    JsNum × JsNum :=
  (clamp (JsNum.mul (JsNum.div (JsNum.sub clientX rectLeft) rectWidth) (.fin 100))
      (.fin 0) (.fin 100),
   clamp (JsNum.mul (JsNum.div (JsNum.sub clientY rectTop) rectHeight) (.fin 100))
      (.fin 0) (.fin 100))

end DraggableText

/-! ## Composition Store data model (page.tsx lines 7-21, 101-115) -/

/-- The fields of a browser `File` object that the client reads. -/
structure FileData where
  name : String
  size : ℕ
  type : String
deriving DecidableEq

/-- page.tsx lines 7-13: a filled photo slot. -/
structure PhotoSlot where
  url : String
  name : String
  size : ℕ
  type : String
  position : JsNum × JsNum
deriving DecidableEq

/-- page.tsx line 20: the tone enumeration of a text sticker. -/
inductive Tone where
  | accent : Tone
  | ink : Tone
deriving DecidableEq

/-- page.tsx lines 15-21: a text sticker. -/
structure TextSticker where
  id : String
  text : String
  position : JsNum × JsNum
  size : ℚ
  tone : Tone
deriving DecidableEq

/-- page.tsx lines 101-107: `createSlot(url, file)` fills the slot's image
fields from the upload result and resets `position` to the midpoint. -/
def createSlot (url : String) (file : FileData) : PhotoSlot :=
  { url := url
    name := file.name
    size := file.size
    type := file.type
    position := (.fin 50, .fin 50) }

/-- page.tsx lines 109-115: `createSticker(text = "Your text")`.  The id
string `sticker-${Date.now()}-${Math.random().toString(16).slice(2)}` is
produced by an external entropy source; it is modelled by an abstract id
supply (a function from the number of stickers created so far to a string)
passed in by the caller, see `addStickerOp`. -/
def createSticker (id : String) (text : String := "Your text") : TextSticker :=
  { id := id
    text := text
    position := (.fin 70, .fin 20)
    size := 18
    tone := Tone.accent }

/-! ## Index-addressed list updates

The handlers repeatedly use `prev.map((v, i) => i === index ? ... : v)` and
`prev.filter((_, i) => i !== index)`; `mapWithIdx` and `filterIdxNe` embed
these with an explicit running index. -/

/-- `l.map((v, i) => f i v)` with the running index made explicit. -/
def mapWithIdx (f : ℕ → α → β) : ℕ → List α → List β
  | _, [] => []
  | i, x :: xs => f i x :: mapWithIdx f (i + 1) xs

/-- `prev.map((v, i) => i === index ? x : v)`: replace the element at
`index`, leave everything else (including out-of-range indices) alone. -/
def setIdx (l : List α) (index : ℕ) (x : α) : List α :=
  mapWithIdx (fun i v => if i = index then x else v) 0 l

/-- `prev.filter((_, i) => i !== index)` with the running index made
explicit: keep every element whose index differs from `index`. -/
def filterIdxNe (index : ℕ) : ℕ → List α → List α
  | _, [] => []
  | i, x :: xs =>
      if i = index then filterIdxNe index (i + 1) xs
      else x :: filterIdxNe index (i + 1) xs

/-! ## Composition Store operations (page.tsx lines 344-400) -/

/-- page.tsx lines 282-285: the composition starts with two empty slots. -/
def initialPhotos : List (Option PhotoSlot) := [none, none]

/-- page.tsx lines 344-350 (`updatePhotoPosition`): write `position` into
the slot at `index` when that slot is filled; empty and other slots are
left alone. -/
def updatePhotoPosition (photos : List (Option PhotoSlot)) (index : ℕ)
    (position : JsNum × JsNum) : List (Option PhotoSlot) :=
  mapWithIdx
    (fun slotIndex slot =>
      if slotIndex = index then
        match slot with
        | some s => some { s with position := position }
        | none => none
      else slot)
    0 photos

/-- page.tsx lines 373-380 (`swapPhotos`): no-op when fewer than two slots
exist, otherwise exchange the slots at indices 0 and 1 in place. -/
def swapPhotos (photos : List (Option PhotoSlot)) : List (Option PhotoSlot) :=
  if photos.length < 2 then photos
  else
    match photos with
    | a :: b :: rest => b :: a :: rest
    | l => l

/-- page.tsx lines 382-390, the `setPhotos` updater of `handleRemove`: with
at most two slots the targeted slot is cleared in place
(`prev.map((slot, i) => i === index ? null : slot)`); with more the slot is
deleted (`prev.filter((_, i) => i !== index)`).  The parallel `uploading`
and `dragOverIndex` updates (lines 391-399) carry no slot data and are not
modelled. -/
def handleRemove (photos : List (Option PhotoSlot)) (index : ℕ) :
    List (Option PhotoSlot) :=
  if photos.length ≤ 2 then
    mapWithIdx (fun slotIndex slot => if slotIndex = index then none else slot) 0 photos
  else
    filterIdxNe index 0 photos

/-! ## Sticker operations (page.tsx lines 365-371, 857-863) -/

/-- The sticker-related client state: the sticker list (page.tsx line 288)
together with the number of `createSticker` calls made so far, which indexes
the abstract id supply standing for `Date.now()`/`Math.random()`. -/
structure StickerState where
  stickers : List TextSticker
  created : ℕ
deriving DecidableEq

/-- The sticker state at session start (page.tsx line 288). -/
def initialStickerState : StickerState :=
  { stickers := [], created := 0 }

/-- The user-triggerable add-sticker operation: the "Add text sticker"
button is disabled once three stickers exist (page.tsx line 859,
`disabled={stickers.length >= 3}`), so a click is a no-op then; otherwise
`handleAddSticker` (lines 365-367) appends `createSticker()`.  `gen` is the
abstract id supply for `createSticker`'s timestamp-and-randomness id. -/
def addStickerOp (gen : ℕ → String) (s : StickerState) : StickerState :=
  if 3 ≤ s.stickers.length then s
  else
    { stickers := s.stickers ++ [createSticker (gen s.created)]
      created := s.created + 1 }

/-- page.tsx lines 369-371 (`handleRemoveSticker`): drop every sticker
whose id equals the given one. -/
def removeStickerOp (id : String) (s : StickerState) : StickerState :=
  { s with stickers := s.stickers.filter (fun sticker => sticker.id ≠ id) }

/-- A user action on the sticker set. -/
inductive StickerOp where
  | add : StickerOp
  | remove : String → StickerOp

/-- Run a finite sequence of sticker operations from a given state. -/
def runStickerOps (gen : ℕ → String) (ops : List StickerOp) (s : StickerState) :
    StickerState :=
  ops.foldl
    (fun s op =>
      match op with
      | StickerOp.add => addStickerOp gen s
      | StickerOp.remove id => removeStickerOp id s)
    s

/-- The sticker-state invariant: every sticker's id comes from an already
consumed position of the id supply, and the ids are pairwise distinct. -/
def StickerInv (gen : ℕ → String) (s : StickerState) : Prop :=
  (∀ sticker ∈ s.stickers, ∃ j, j < s.created ∧ sticker.id = gen j) ∧
    (s.stickers.map TextSticker.id).Nodup

/-! ## Upload handler (page.tsx lines 402-466) -/

/-- The outcome of the network part of an upload attempt: the `/auth`
request fails (non-2xx), the upload service answers non-2xx with an
optional `message` field in its payload, or the upload succeeds with the
hosted `url`. -/
inductive UploadOutcome where
  | authFailed : UploadOutcome
  | uploadFailed : Option String → UploadOutcome
  | uploadOk : String → UploadOutcome

/-- The slice of client state that `handleUpload` touches. -/
structure UploadState where
  photos : List (Option PhotoSlot)
  uploading : List Bool
  error : Option String
deriving DecidableEq

/-- page.tsx lines 406-411: the error message shown when the ImageKit
public key is missing from the client configuration. -/
def missingKeyMessage : String :=
  "Missing ImageKit public key. Add NEXT_PUBLIC_IMAGEKIT_PUBLIC_KEY in client .env.local."

/-- page.tsx lines 402-466 (`handleUpload`), with the network responses
abstracted into an `UploadOutcome`: a missing file returns immediately;
`setError(null)` clears the message; a missing public key sets a
configuration error before any flag is touched; otherwise the slot's
`uploading` flag is raised, the outcome is handled — auth failure and
upload failure throw into the `catch` which sets the error message
(`uploadData?.message ?? "Upload failed."` for the upload service), while
success writes `createSlot(uploadData.url, file)` into the slot at `index`
— and the `finally` block lowers the `uploading` flag. -/
def handleUpload (publicKey : String) (s : UploadState) (index : ℕ)
    (file : Option FileData) (outcome : UploadOutcome) : UploadState :=
  match file with
  | none => s
  | some f =>
      let s := { s with error := none }
      if publicKey = "" then
        { s with error := some missingKeyMessage }
      else
        let s := { s with uploading := setIdx s.uploading index true }
        let s :=
          match outcome with
          | UploadOutcome.authFailed =>
              { s with error := some "ImageKit auth failed. Is the server running?" }
          | UploadOutcome.uploadFailed msg =>
              { s with error := some (msg.getD "Upload failed.") }
          | UploadOutcome.uploadOk url =>
              { s with photos := setIdx s.photos index (some (createSlot url f)) }
        { s with uploading := setIdx s.uploading index false }

/-! ## Layout Engine (page.tsx lines 124-129) and export filename (line 489) -/

/-- page.tsx lines 124-129 (`getPhotoGrid`): `safeCount = Math.max(1, count)`;
`columns = safeCount <= 1 ? 1 : safeCount <= 4 ? 2 : 3`;
`rows = Math.ceil(safeCount / columns)` — for naturals `a` and positive `b`,
`Math.ceil(a / b) = (a + b - 1) / b` in integer division. -/
def getPhotoGrid (count : ℕ) : ℕ × ℕ :=
  let safeCount := max 1 count
  let columns := if safeCount ≤ 1 then 1 else if safeCount ≤ 4 then 2 else 3
  let rows := (safeCount + columns - 1) / columns
  (columns, rows)

/-- The grid sizing rule exactly as the claim states it, for comparison
with `getPhotoGrid`: `columns = 1 if N ≤ 1, else 2 if N ≤ 4, else 3`. -/
def claimGridColumns (n : ℕ) : ℕ :=
  if n ≤ 1 then 1 else if n ≤ 4 then 2 else 3

/-- The claim's row rule: `rows = ceil(N / columns)`. -/
def claimGridRows (n : ℕ) : ℕ :=
  (n + claimGridColumns n - 1) / claimGridColumns n

/-- page.tsx line 489 (`handleDownload`): the download filename is
`${recipient || "birthday-card"}.png`; the JavaScript `||` falls back
exactly when `recipient` is the empty string. -/
def downloadFilename (recipient : String) : String :=
  (if recipient = "" then "birthday-card" else recipient) ++ ".png"

/-- A minimal necessary condition for a string to be a *sanitized*
filename, following the claim's words: whatever else sanitization does, a
sanitized filename contains no path separator. -/
def SanitizedFilename (s : String) : Prop :=
  '/' ∉ s.toList

/-! ## Lemmas about the index-addressed list operations -/

theorem mapWithIdx_length (f : ℕ → α → β) (s : ℕ) (l : List α) :
    (mapWithIdx f s l).length = l.length := by
  induction l generalizing s with
  | nil => rfl
  | cons x xs ih => simp [mapWithIdx, ih]

theorem mapWithIdx_getElem? (f : ℕ → α → β) (s i : ℕ) (l : List α) :
    (mapWithIdx f s l)[i]? = (l[i]?).map (f (s + i)) := by
  induction l generalizing s i with
  | nil => simp [mapWithIdx]
  | cons x xs ih =>
      cases i with
      | zero => simp [mapWithIdx]
      | succ n =>
          simp only [mapWithIdx, List.getElem?_cons_succ]
          rw [ih (s + 1) n]
          have harith : s + 1 + n = s + (n + 1) := by omega
          rw [harith]

theorem setIdx_length (l : List α) (index : ℕ) (x : α) :
    (setIdx l index x).length = l.length :=
  mapWithIdx_length _ 0 l

theorem setIdx_getElem?_self (l : List α) (index : ℕ) (hi : index < l.length) (x : α) :
    (setIdx l index x)[index]? = some x := by
  rw [setIdx, mapWithIdx_getElem?]
  rcases List.getElem?_eq_some_iff.mpr ⟨hi, rfl⟩ with h
  rw [h]
  simp

theorem filterIdxNe_eq (index : ℕ) (l : List α) :
    ∀ s : ℕ, filterIdxNe index s l =
      if index < s then l else l.eraseIdx (index - s) := by
  induction l with
  | nil => intro s; cases Nat.decLt index s <;> simp [filterIdxNe, List.eraseIdx]
  | cons x xs ih =>
      intro s
      by_cases hs : s = index
      · subst hs
        have h1 : s < s + 1 := Nat.lt_succ_self s
        simp [filterIdxNe, ih (s + 1), h1, Nat.lt_irrefl, Nat.sub_self, List.eraseIdx]
      · rcases Nat.lt_or_ge index s with hlt | hge
        · have h1 : index < s + 1 := Nat.lt_succ_of_lt hlt
          simp [filterIdxNe, hs, ih (s + 1), h1, hlt]
        · have h1 : ¬ index < s + 1 := by omega
          have h2 : ¬ index < s := by omega
          have h3 : index - s = (index - (s + 1)) + 1 := by omega
          simp only [filterIdxNe, if_neg hs, ih (s + 1), if_neg h1, if_neg h2, h3]
          rfl

theorem filterIdxNe_eq_eraseIdx (index : ℕ) (l : List α) :
    filterIdxNe index 0 l = l.eraseIdx index := by
  rw [filterIdxNe_eq index l 0]
  simp

/-! ## Lemmas about the JavaScript number model -/

theorem JsNum.sub_fin (a b : ℚ) : JsNum.sub (.fin a) (.fin b) = .fin (a - b) := rfl

theorem JsNum.div_fin (a b : ℚ) (hb : b ≠ 0) :
    JsNum.div (.fin a) (.fin b) = .fin (a / b) := by
  simp [JsNum.div, hb]

theorem JsNum.mul_fin (a b : ℚ) : JsNum.mul (.fin a) (.fin b) = .fin (a * b) := rfl

theorem clamp_fin (v lo hi : ℚ) :
    clamp (.fin v) (.fin lo) (.fin hi) = .fin (clampQ v lo hi) := rfl

theorem clampQ_nonneg (v : ℚ) : 0 ≤ clampQ v 0 100 :=
  le_min (by norm_num) (le_max_left 0 v)

theorem clampQ_le_hundred (v : ℚ) : clampQ v 0 100 ≤ 100 :=
  min_le_left 100 (max 0 v)

/-! ## Claim theorems -/

/-- Claim C1: for every pointer coordinate pair and every container
rectangle with positive width and height, both Coordinate Mapper instances
(the photo-slot one and the text-sticker one) return exactly
`x = clamp((pointerX - rectLeft) / rectWidth * 100, 0, 100)` and
`y = clamp((pointerY - rectTop) / rectHeight * 100, 0, 100)`, and this
position lies in `[0,100] × [0,100]` for pointer coordinates inside the
bounds as well as outside them. -/
theorem coordinate_mapper_clamps (px py l t w h : ℚ) (hw : 0 < w) (hh : 0 < h) :
    DraggableImage.updatePosition (.fin px) (.fin py) (.fin l) (.fin t) (.fin w) (.fin h) =
      (.fin (clampQ ((px - l) / w * 100) 0 100), .fin (clampQ ((py - t) / h * 100) 0 100)) ∧
    DraggableText.updatePosition (.fin px) (.fin py) (.fin l) (.fin t) (.fin w) (.fin h) =
      (.fin (clampQ ((px - l) / w * 100) 0 100), .fin (clampQ ((py - t) / h * 100) 0 100)) ∧
    (0 ≤ clampQ ((px - l) / w * 100) 0 100 ∧ clampQ ((px - l) / w * 100) 0 100 ≤ 100) ∧
    (0 ≤ clampQ ((py - t) / h * 100) 0 100 ∧ clampQ ((py - t) / h * 100) 0 100 ≤ 100) := by
  have hw' : w ≠ 0 := ne_of_gt hw
  have hh' : h ≠ 0 := ne_of_gt hh
  have hx :
      clamp (JsNum.mul (JsNum.div (JsNum.sub (.fin px) (.fin l)) (.fin w)) (.fin 100))
          (.fin 0) (.fin 100) = .fin (clampQ ((px - l) / w * 100) 0 100) := by
    rw [JsNum.sub_fin, JsNum.div_fin _ _ hw', JsNum.mul_fin, clamp_fin]
  have hy :
      clamp (JsNum.mul (JsNum.div (JsNum.sub (.fin py) (.fin t)) (.fin h)) (.fin 100))
          (.fin 0) (.fin 100) = .fin (clampQ ((py - t) / h * 100) 0 100) := by
    rw [JsNum.sub_fin, JsNum.div_fin _ _ hh', JsNum.mul_fin, clamp_fin]
  refine ⟨?_, ?_, ⟨clampQ_nonneg _, clampQ_le_hundred _⟩, ⟨clampQ_nonneg _, clampQ_le_hundred _⟩⟩
  · rw [DraggableImage.updatePosition, hx, hy]
  · rw [DraggableText.updatePosition, hx, hy]

/-- Witness for C1 at a concrete pointer event: container at `(50, 10)`
with size `100 × 40`, pointer at `(250, 30)` (outside the bounds on the
x-axis, inside on the y-axis). -/
theorem coordinate_mapper_clamps_witness :
    (0 : ℚ) < 100 ∧ (0 : ℚ) < 40 ∧
    (DraggableImage.updatePosition (.fin 250) (.fin 30) (.fin 50) (.fin 10) (.fin 100) (.fin 40) =
      (.fin (clampQ ((250 - 50) / 100 * 100) 0 100), .fin (clampQ ((30 - 10) / 40 * 100) 0 100)) ∧
    DraggableText.updatePosition (.fin 250) (.fin 30) (.fin 50) (.fin 10) (.fin 100) (.fin 40) =
      (.fin (clampQ ((250 - 50) / 100 * 100) 0 100), .fin (clampQ ((30 - 10) / 40 * 100) 0 100)) ∧
    (0 ≤ clampQ ((250 - 50) / 100 * 100) 0 100 ∧ clampQ ((250 - 50) / 100 * 100) 0 100 ≤ 100) ∧
    (0 ≤ clampQ ((30 - 10) / 40 * 100) 0 100 ∧ clampQ ((30 - 10) / 40 * 100) 0 100 ≤ 100)) :=
  ⟨by norm_num, by norm_num,
    coordinate_mapper_clamps 250 30 50 10 100 40 (by norm_num) (by norm_num)⟩

/-- A filled photo slot used as a concrete input in witnesses. -/
def wSlotA : PhotoSlot := createSlot "https://ik.example/a" ⟨"a.png", 11, "image/png"⟩

/-- A second concrete filled photo slot. -/
def wSlotB : PhotoSlot := createSlot "https://ik.example/b" ⟨"b.png", 22, "image/png"⟩

/-- A third concrete filled photo slot. -/
def wSlotC : PhotoSlot := createSlot "https://ik.example/c" ⟨"c.png", 33, "image/png"⟩

/-- Claim C2 is false of the code: the coordinate computation has no
division-by-zero guard.  On a container whose bounding rectangle has width
0 and height 0, a pointer event at the rectangle's origin makes both
Coordinate Mapper instances compute `0/0 * 100 = NaN`, which `clamp`
propagates (`Math.max(0, NaN) = NaN`); and the handler passes the result to
`onPositionChange` unconditionally, so the stored position is overwritten
(here: with `(NaN, NaN)`) rather than left unchanged. -/
theorem degenerate_rect_produces_nan :
    DraggableImage.updatePosition (.fin 5) (.fin 7) (.fin 5) (.fin 7) (.fin 0) (.fin 0) =
      (JsNum.nan, JsNum.nan) ∧
    DraggableText.updatePosition (.fin 5) (.fin 7) (.fin 5) (.fin 7) (.fin 0) (.fin 0) =
      (JsNum.nan, JsNum.nan) ∧
    updatePhotoPosition [some wSlotA] 0 (JsNum.nan, JsNum.nan) =
      [some { wSlotA with position := (JsNum.nan, JsNum.nan) }] ∧
    { wSlotA with position := (JsNum.nan, JsNum.nan) } ≠ wSlotA := by
  have hnan : ∀ p : ℚ,
      JsNum.mul (JsNum.div (JsNum.sub (.fin p) (.fin p)) (.fin 0)) (.fin 100) = JsNum.nan := by
    intro p
    rw [JsNum.sub_fin, sub_self]
    have hdiv : JsNum.div (.fin 0) (.fin 0) = JsNum.nan := by simp [JsNum.div]
    rw [hdiv]
    rfl
  refine ⟨?_, ?_, rfl, ?_⟩
  · unfold DraggableImage.updatePosition
    rw [hnan 5, hnan 7]
    rfl
  · unfold DraggableText.updatePosition
    rw [hnan 5, hnan 7]
    rfl
  · intro h
    have hp := congrArg PhotoSlot.position h
    simp [wSlotA, createSlot] at hp

/-- Claim C3: on a composition with exactly 2 slots, `handleRemove`
clears the targeted slot in place and the slot count stays 2; on a
composition with 3 or more slots it deletes the slot at `index` — the
result is `eraseIdx`, which also states that the relative order of the
remaining slots is preserved — and reduces the count by exactly 1. -/
theorem handleRemove_spec (photos : List (Option PhotoSlot)) (index : ℕ) :
    (photos.length = 2 →
      (handleRemove photos index).length = 2 ∧
      (index < 2 → (handleRemove photos index)[index]? = some none) ∧
      (∀ j, j ≠ index → (handleRemove photos index)[j]? = photos[j]?)) ∧
    (3 ≤ photos.length → index < photos.length →
      handleRemove photos index = photos.eraseIdx index ∧
      (handleRemove photos index).length = photos.length - 1) := by
  constructor
  · intro h2
    have hif : photos.length ≤ 2 := by omega
    have hrm : handleRemove photos index =
        mapWithIdx (fun slotIndex slot => if slotIndex = index then none else slot) 0 photos := by
      rw [handleRemove, if_pos hif]
    refine ⟨?_, ?_, ?_⟩
    · rw [hrm, mapWithIdx_length, h2]
    · intro hi
      have hlt : index < photos.length := by omega
      rw [hrm, mapWithIdx_getElem?, List.getElem?_eq_getElem hlt]
      simp
    · intro j hj
      rw [hrm, mapWithIdx_getElem?]
      cases hpj : photos[j]? with
      | none => simp
      | some v => simp [hj]
  · intro h3 hi
    have hif : ¬ photos.length ≤ 2 := by omega
    have hrm : handleRemove photos index = photos.eraseIdx index := by
      rw [handleRemove, if_neg hif, filterIdxNe_eq_eraseIdx]
    exact ⟨hrm, by rw [hrm, List.length_eraseIdx_of_lt hi]⟩

/-- Witness for C3: removing from a 2-slot composition clears in place
and keeps the count at 2; removing slot 1 from a 3-slot composition
deletes it and shifts slot 2 down. -/
theorem handleRemove_spec_witness :
    ([some wSlotA, some wSlotB] : List (Option PhotoSlot)).length = 2 ∧
    (handleRemove [some wSlotA, some wSlotB] 0).length = 2 ∧
    (handleRemove [some wSlotA, some wSlotB] 0)[0]? = some none ∧
    (handleRemove [some wSlotA, some wSlotB] 0)[1]? = some (some wSlotB) ∧
    handleRemove [some wSlotA, some wSlotB, some wSlotC] 1 =
      ([some wSlotA, some wSlotB, some wSlotC] : List (Option PhotoSlot)).eraseIdx 1 ∧
    (handleRemove [some wSlotA, some wSlotB, some wSlotC] 1).length = 2 := by
  have h2 := (handleRemove_spec [some wSlotA, some wSlotB] 0).1 rfl
  have h3 := (handleRemove_spec [some wSlotA, some wSlotB, some wSlotC] 1).2
    (by simp) (by simp)
  exact ⟨rfl, h2.1, h2.2.1 (by omega), h2.2.2 1 (by omega), h3.1, h3.2⟩

/-- Counterexample to claim C6 as stated: the claim's rule is quantified
over *every* item count `N`, but at `N = 0` the code's
`safeCount = Math.max(1, count)` guard makes `getPhotoGrid` return 1 row,
while the claimed formula `rows = ceil(N / columns)` yields 0 rows. -/
theorem getPhotoGrid_zero_counterexample :
    getPhotoGrid 0 = (1, 1) ∧ (claimGridColumns 0, claimGridRows 0) = (1, 0) ∧
    getPhotoGrid 0 ≠ (claimGridColumns 0, claimGridRows 0) := by decide

/-- Claim C6, amended: for every item count `N ≥ 1` (the code clamps the
count to at least 1 before applying the rule, and every call site passes a
count ≥ 1), the grid is `columns = 1 if N ≤ 1, else 2 if N ≤ 4, else 3`
and `rows = ceil(N / columns)`. -/
theorem getPhotoGrid_spec (n : ℕ) (hn : 1 ≤ n) :
    getPhotoGrid n = (claimGridColumns n, claimGridRows n) := by
  have hmax : max 1 n = n := Nat.max_eq_right hn
  simp only [getPhotoGrid, claimGridColumns, claimGridRows, hmax]

/-- Witness for C6 at the item counts named by the claim:
`N=1 → (1,1)`, `N=4 → (2,2)`, `N=5 → (3,2)`, `N=7 → (3,3)`. -/
theorem getPhotoGrid_spec_witness :
    getPhotoGrid 1 = (1, 1) ∧ getPhotoGrid 4 = (2, 2) ∧
    getPhotoGrid 5 = (3, 2) ∧ getPhotoGrid 7 = (3, 3) :=
  ⟨(getPhotoGrid_spec 1 (by norm_num)).trans (by decide),
   (getPhotoGrid_spec 4 (by norm_num)).trans (by decide),
   (getPhotoGrid_spec 5 (by norm_num)).trans (by decide),
   (getPhotoGrid_spec 7 (by norm_num)).trans (by decide)⟩

/-- `swapPhotos` on a list with at least two elements exchanges the first
two in place. -/
theorem swapPhotos_cons_cons (a b : Option PhotoSlot) (rest : List (Option PhotoSlot)) :
    swapPhotos (a :: b :: rest) = b :: a :: rest := by
  rw [swapPhotos, if_neg (by simp)]

/-- Claim C7: `swapPhotos` is a no-op on fewer than 2 slots; with at least
2 slots it exchanges slot 0 and slot 1 in place with all their fields
(whole `PhotoSlot` values, positions included); and applying it twice
restores the original list (involution). -/
theorem swapPhotos_spec (photos : List (Option PhotoSlot)) :
    (photos.length < 2 → swapPhotos photos = photos) ∧
    (∀ a b rest, photos = a :: b :: rest → swapPhotos photos = b :: a :: rest) ∧
    swapPhotos (swapPhotos photos) = photos := by
  match photos with
  | [] =>
      refine ⟨fun _ => rfl, ?_, rfl⟩
      intro a b rest h
      simp at h
  | [a] =>
      refine ⟨fun _ => rfl, ?_, rfl⟩
      intro a' b rest h
      simp at h
  | a :: b :: rest =>
      refine ⟨fun h => by simp at h; omega, ?_, ?_⟩
      · intro a' b' rest' h
        cases h
        exact swapPhotos_cons_cons a b rest
      · rw [swapPhotos_cons_cons, swapPhotos_cons_cons]

/-- Witness for C7 at concrete slots: the swap exchanges the two filled
slots, and swapping twice restores them; the empty composition is
untouched. -/
theorem swapPhotos_spec_witness :
    swapPhotos [some wSlotA, some wSlotB] = [some wSlotB, some wSlotA] ∧
    swapPhotos (swapPhotos [some wSlotA, some wSlotB]) = [some wSlotA, some wSlotB] ∧
    swapPhotos ([] : List (Option PhotoSlot)) = [] :=
  ⟨(swapPhotos_spec [some wSlotA, some wSlotB]).2.1 _ _ _ rfl,
   (swapPhotos_spec [some wSlotA, some wSlotB]).2.2,
   (swapPhotos_spec []).1 (by simp)⟩

/-- Counterexample to claim C10 as stated: the code performs no
sanitization of the recipient name.  A recipient name containing a path
separator is used verbatim in the download filename, so the filename is
not a *sanitized* recipient name (any sanitization at minimum removes path
separators). -/
theorem downloadFilename_not_sanitized :
    downloadFilename "photos/me" = "photos/me.png" ∧
    ¬ SanitizedFilename (downloadFilename "photos/me") :=
  ⟨rfl, fun h => h (by decide)⟩

/-- Claim C10, amended: the download filename is the recipient name used
*verbatim* (no sanitization) suffixed with `.png`; when the recipient name
is the empty string, the fixed default `birthday-card.png` is used. -/
theorem downloadFilename_spec (recipient : String) :
    (recipient ≠ "" → downloadFilename recipient = recipient ++ ".png") ∧
    downloadFilename "" = "birthday-card.png" ∧
    (∃ stem, downloadFilename recipient = stem ++ ".png") := by
  refine ⟨fun h => ?_, rfl, ⟨if recipient = "" then "birthday-card" else recipient, rfl⟩⟩
  rw [downloadFilename, if_neg h]

/-- Witness for C10 at a concrete non-empty recipient name. -/
theorem downloadFilename_spec_witness :
    downloadFilename "Priya" = "Priya.png" ∧
    (∃ stem, downloadFilename "Priya" = stem ++ ".png") :=
  ⟨(downloadFilename_spec "Priya").1 (by decide), (downloadFilename_spec "Priya").2.2⟩

/-! ## Sticker id freshness -/

/-- Under the invariant, the id the supply would produce next is not yet
present among the stickers. -/
theorem fresh_id (gen : ℕ → String) (hg : Function.Injective gen) (s : StickerState)
    (hinv : StickerInv gen s) :
    gen s.created ∉ s.stickers.map TextSticker.id := by
  intro hmem
  rcases List.mem_map.mp hmem with ⟨st, hst, hid⟩
  rcases hinv.1 st hst with ⟨j, hj, hjid⟩
  have : j = s.created := hg (by rw [← hjid, hid])
  omega

/-- `addStickerOp` preserves the sticker-state invariant. -/
theorem stickerInv_add (gen : ℕ → String) (hg : Function.Injective gen)
    (s : StickerState) (hinv : StickerInv gen s) :
    StickerInv gen (addStickerOp gen s) := by
  rw [addStickerOp]
  by_cases hlen : 3 ≤ s.stickers.length
  · rw [if_pos hlen]; exact hinv
  · rw [if_neg hlen]
    constructor
    · intro st hst
      rcases List.mem_append.mp hst with hold | hnew
      · rcases hinv.1 st hold with ⟨j, hj, hjid⟩
        exact ⟨j, Nat.lt_succ_of_lt hj, hjid⟩
      · have heq : st = createSticker (gen s.created) := List.mem_singleton.mp hnew
        exact ⟨s.created, Nat.lt_succ_self _, by rw [heq]; rfl⟩
    · have hfresh := fresh_id gen hg s hinv
      simp only [List.map_append, List.map_cons, List.map_nil]
      rw [List.nodup_append]
      refine ⟨hinv.2, List.nodup_singleton _, ?_⟩
      intro x hx hx'
      have : x = gen s.created := by simpa [createSticker] using hx'
      exact hfresh (this ▸ hx)

/-- `removeStickerOp` preserves the sticker-state invariant. -/
theorem stickerInv_remove (gen : ℕ → String) (id : String)
    (s : StickerState) (hinv : StickerInv gen s) :
    StickerInv gen (removeStickerOp id s) := by
  constructor
  · intro st hst
    exact hinv.1 st (List.mem_of_mem_filter hst)
  · exact hinv.2.sublist ((List.filter_sublist _).map TextSticker.id)

/-- Every finite sequence of sticker operations preserves the invariant. -/
theorem stickerInv_runOps (gen : ℕ → String) (hg : Function.Injective gen)
    (ops : List StickerOp) (s : StickerState) (hinv : StickerInv gen s) :
    StickerInv gen (runStickerOps gen ops s) := by
  induction ops generalizing s with
  | nil => exact hinv
  | cons op rest ih =>
      cases op with
      | add => exact ih _ (stickerInv_add gen hg s hinv)
      | remove id => exact ih _ (stickerInv_remove gen id s hinv)

/-- The empty sticker state satisfies the invariant. -/
theorem stickerInv_initial (gen : ℕ → String) : StickerInv gen initialStickerState := by
  constructor
  · intro st hst
    simp [initialStickerState] at hst
  · simp [initialStickerState]

/-- Claim C4: the user-triggerable add-sticker operation is a no-op when
the sticker count is already 3 (so the count never exceeds 3); otherwise
it appends exactly one sticker with default position `{70, 20}`, size 18,
tone `accent`, and an id fresh from the supply — which, when the supply is
injective and the state satisfies the invariant (as every reachable state
does), differs from every id already present. -/
theorem addSticker_spec (gen : ℕ → String) (s : StickerState) :
    (3 ≤ s.stickers.length → addStickerOp gen s = s) ∧
    (s.stickers.length ≤ 3 → (addStickerOp gen s).stickers.length ≤ 3) ∧
    (s.stickers.length < 3 →
      (addStickerOp gen s).stickers =
        s.stickers ++
          [{ id := gen s.created, text := "Your text",
             position := (.fin 70, .fin 20), size := 18, tone := Tone.accent }] ∧
      (Function.Injective gen → StickerInv gen s →
        gen s.created ∉ s.stickers.map TextSticker.id)) := by
  refine ⟨fun h3 => ?_, fun hle => ?_, fun hlt => ?_⟩
  · rw [addStickerOp, if_pos h3]
  · rw [addStickerOp]
    by_cases h3 : 3 ≤ s.stickers.length
    · rw [if_pos h3]; exact hle
    · rw [if_neg h3]
      simp only [List.length_append, List.length_singleton]
      omega
  · have hne : ¬ 3 ≤ s.stickers.length := by omega
    refine ⟨by rw [addStickerOp, if_neg hne]; rfl, fun hg hinv => fresh_id gen hg s hinv⟩

/-- The id supply used for witnesses: `n` is mapped to a string of `n`
copies of `x`, which is injective by length. -/
def wGen (n : ℕ) : String :=
  String.mk (List.replicate n 'x')

/-- The witness id supply is injective. -/
theorem wGen_injective : Function.Injective wGen := by
  intro a b h
  have hlen := congrArg (fun s => s.data.length) h
  simpa [wGen] using hlen

/-- Witness for C4: at three stickers the operation is a no-op; on the
initial (empty) state it appends the single default sticker with the fresh
id. -/
theorem addSticker_spec_witness :
    addStickerOp wGen ⟨[createSticker "a", createSticker "b", createSticker "c"], 3⟩ =
      ⟨[createSticker "a", createSticker "b", createSticker "c"], 3⟩ ∧
    (addStickerOp wGen initialStickerState).stickers =
      [{ id := wGen 0, text := "Your text",
         position := (.fin 70, .fin 20), size := 18, tone := Tone.accent }] ∧
    wGen 0 ∉ initialStickerState.stickers.map TextSticker.id := by
  have h1 := (addSticker_spec wGen
    ⟨[createSticker "a", createSticker "b", createSticker "c"], 3⟩).1 (by simp)
  have h3 := (addSticker_spec wGen initialStickerState).2.2 (by simp [initialStickerState])
  exact ⟨h1, h3.1, h3.2 wGen_injective (stickerInv_initial wGen)⟩

/-- Claim C5: after every finite sequence of add-sticker and
remove-sticker operations starting from the empty sticker set, the ids of
the stickers present are pairwise distinct — assuming the id supply
(modelling `Date.now()` plus `Math.random()`) never repeats a value. -/
theorem sticker_ids_distinct (gen : ℕ → String) (hg : Function.Injective gen)
    (ops : List StickerOp) :
    ((runStickerOps gen ops initialStickerState).stickers.map TextSticker.id).Nodup :=
  (stickerInv_runOps gen hg ops initialStickerState (stickerInv_initial gen)).2

/-- Witness for C5: a concrete add/remove/add cycle with the witness
supply keeps the ids pairwise distinct. -/
theorem sticker_ids_distinct_witness :
    Function.Injective wGen ∧
    ((runStickerOps wGen
        [StickerOp.add, StickerOp.add, StickerOp.remove (wGen 0), StickerOp.add]
        initialStickerState).stickers.map TextSticker.id).Nodup :=
  ⟨wGen_injective, sticker_ids_distinct wGen wGen_injective _⟩

/-! ## Reduction lemmas for the upload handler -/

theorem handleUpload_uploadFailed_eq (publicKey : String) (hpk : publicKey ≠ "")
    (s : UploadState) (index : ℕ) (f : FileData) (msg : Option String) :
    handleUpload publicKey s index (some f) (UploadOutcome.uploadFailed msg) =
      { photos := s.photos,
        uploading := setIdx (setIdx s.uploading index true) index false,
        error := some (msg.getD "Upload failed.") } := by
  simp only [handleUpload, if_neg hpk]

theorem handleUpload_authFailed_eq (publicKey : String) (hpk : publicKey ≠ "")
    (s : UploadState) (index : ℕ) (f : FileData) :
    handleUpload publicKey s index (some f) UploadOutcome.authFailed =
      { photos := s.photos,
        uploading := setIdx (setIdx s.uploading index true) index false,
        error := some "ImageKit auth failed. Is the server running?" } := by
  simp only [handleUpload, if_neg hpk]

theorem handleUpload_uploadOk_eq (publicKey : String) (hpk : publicKey ≠ "")
    (s : UploadState) (index : ℕ) (f : FileData) (url : String) :
    handleUpload publicKey s index (some f) (UploadOutcome.uploadOk url) =
      { photos := setIdx s.photos index (some (createSlot url f)),
        uploading := setIdx (setIdx s.uploading index true) index false,
        error := none } := by
  simp only [handleUpload, if_neg hpk]

/-- Claim C8: when the upload attempt fails — the upload service answers
non-2xx, or the auth request fails — no slot is mutated (the photo list is
exactly what it was before the attempt, so no rollback is needed), the
user-visible error equals the upload service's reported message when one
is provided, and the targeted slot's `uploading` flag returns to `false`. -/
theorem upload_failure_spec (publicKey : String) (hpk : publicKey ≠ "")
    (s : UploadState) (index : ℕ) (hidx : index < s.uploading.length)
    (f : FileData) (m : String) :
    (handleUpload publicKey s index (some f)
        (UploadOutcome.uploadFailed (some m))).photos = s.photos ∧
    (handleUpload publicKey s index (some f)
        (UploadOutcome.uploadFailed (some m))).error = some m ∧
    (handleUpload publicKey s index (some f)
        (UploadOutcome.uploadFailed (some m))).uploading[index]? = some false ∧
    (handleUpload publicKey s index (some f) UploadOutcome.authFailed).photos = s.photos ∧
    (handleUpload publicKey s index (some f)
        UploadOutcome.authFailed).uploading[index]? = some false := by
  have hlen : index < (setIdx s.uploading index true).length := by
    rw [setIdx_length]; exact hidx
  have hflag := setIdx_getElem?_self (setIdx s.uploading index true) index hlen false
  rw [handleUpload_uploadFailed_eq publicKey hpk s index f (some m),
    handleUpload_authFailed_eq publicKey hpk s index f]
  exact ⟨rfl, rfl, hflag, rfl, hflag⟩

/-- Witness for C8: a failed upload into slot 0 of the 2-slot composition
leaves both slots untouched, surfaces the service message, and lowers the
flag; so does a failed auth request. -/
theorem upload_failure_spec_witness :
    ("public_key" : String) ≠ "" ∧
    (0 : ℕ) < ([false, false] : List Bool).length ∧
    (handleUpload "public_key" ⟨[none, none], [false, false], none⟩ 0
        (some ⟨"a.png", 11, "image/png"⟩)
        (UploadOutcome.uploadFailed (some "Your account cannot be authenticated."))).photos =
      [none, none] ∧
    (handleUpload "public_key" ⟨[none, none], [false, false], none⟩ 0
        (some ⟨"a.png", 11, "image/png"⟩)
        (UploadOutcome.uploadFailed (some "Your account cannot be authenticated."))).error =
      some "Your account cannot be authenticated." ∧
    (handleUpload "public_key" ⟨[none, none], [false, false], none⟩ 0
        (some ⟨"a.png", 11, "image/png"⟩)
        (UploadOutcome.uploadFailed
          (some "Your account cannot be authenticated."))).uploading[0]? = some false ∧
    (handleUpload "public_key" ⟨[none, none], [false, false], none⟩ 0
        (some ⟨"a.png", 11, "image/png"⟩) UploadOutcome.authFailed).photos = [none, none] ∧
    (handleUpload "public_key" ⟨[none, none], [false, false], none⟩ 0
        (some ⟨"a.png", 11, "image/png"⟩)
        UploadOutcome.authFailed).uploading[0]? = some false := by
  have h := upload_failure_spec "public_key" (by decide)
    ⟨[none, none], [false, false], none⟩ 0 (by decide)
    ⟨"a.png", 11, "image/png"⟩ "Your account cannot be authenticated."
  exact ⟨by decide, by decide, h.1, h.2.1, h.2.2.1, h.2.2.2.1, h.2.2.2.2⟩

/-- Claim C9 is false of the code: `handleUpload` resolves its in-flight
response against the *captured index*, not a stable slot identity.
Concretely: the composition holds slots A, B, C; an upload targets index 1
(slot B); before the response arrives `handleRemove 1` deletes slot B,
shifting slot C down to index 1; when the response then arrives, its
`setPhotos` updater writes the uploaded image into index 1 — overwriting
logical slot C instead of being discarded. -/
theorem stale_upload_overwrites_shifted_slot :
    handleRemove [some wSlotA, some wSlotB, some wSlotC] 1 = [some wSlotA, some wSlotC] ∧
    (handleUpload "public_key" ⟨[some wSlotA, some wSlotC], [false, false], none⟩ 1
        (some ⟨"b.png", 22, "image/png"⟩)
        (UploadOutcome.uploadOk "https://ik.example/b-new")).photos =
      [some wSlotA, some (createSlot "https://ik.example/b-new" ⟨"b.png", 22, "image/png"⟩)] ∧
    createSlot "https://ik.example/b-new" ⟨"b.png", 22, "image/png"⟩ ≠ wSlotC := by
  refine ⟨rfl, ?_, ?_⟩
  · rw [handleUpload_uploadOk_eq "public_key" (by decide)
      ⟨[some wSlotA, some wSlotC], [false, false], none⟩ 1
      ⟨"b.png", 22, "image/png"⟩ "https://ik.example/b-new"]
    rfl
  · intro h
    exact absurd (congrArg PhotoSlot.url h) (by decide)

end BirthdayCard
